import Mathlib

/-!
Shallow embedding of the Gate.io futures spread-trading engine
(`enhanced_futures_trader.py`). Prices are Python `Decimal` values,
modelled as exact rationals (`ℚ`); timestamps are modelled as rationals
passed explicitly to each state transition. The per-instrument dictionaries
`current_position` and `tickers` are modelled as functions
`String → Option _`. The WebSocket send path always succeeds in the model
(the source's `place_futures_order` returns `True` after emitting the
request); log-only formatting of numbers inside reason strings is elided,
while the reason markers themselves are kept verbatim.
-/

/-- Cached ticker entry, as stored by `on_ticker_message`. -/
structure Ticker where
  last : ℚ
  bid : ℚ
  ask : ℚ
  volume : ℚ
  change_24h : ℚ
  mark_price : ℚ
  index_price : ℚ
  deriving DecidableEq

/-- An open position, as stored in `self.current_position[contract]`. -/
structure Position where
  size : Int
  entry_price : ℚ
  entry_time : ℚ
  deriving DecidableEq

/-- A completed trade, as appended to `self.completed_trades`. -/
structure TradeRecord where
  contract : String
  entry_price : ℚ
  exit_price : ℚ
  size : Int
  profit : ℚ
  profit_pct : ℚ
  entry_time : ℚ
  exit_time : ℚ
  duration : ℚ
  deriving DecidableEq

/-- The mutable state of a `GateFuturesTrader` instance (configuration
fields plus trading state plus the market-data cache). -/
structure TraderState where
  contracts : List String
  trade_amount : Int
  max_trades : Nat
  spread_threshold : ℚ
  current_position : String → Option Position
  trade_count : Nat
  completed_trades : List TradeRecord
  is_running : Bool
  tickers : String → Option Ticker

/-- Source `calculate_spread_percentage`: a non-positive entry price yields
`Decimal('1.0')` (the source comment claims this means 100%), otherwise
`abs(current - entry) / entry * 100`. -/
def calculate_spread_percentage (current_price entry_price : ℚ) : ℚ :=
  if entry_price ≤ 0 then 1
  else |current_price - entry_price| / entry_price * 100

/-- Helper for the first guard of `should_place_buy_order`:
`contract in self.current_position and self.current_position[contract]['size'] > 0`. -/
def position_size_pos : Option Position → Bool
  | some p => decide (0 < p.size)
  | none => false

/-- Source `should_place_buy_order`. -/
def should_place_buy_order (s : TraderState) (contract : String) : Bool × String :=
  if position_size_pos (s.current_position contract) then (false, "已有持仓")
  else if s.trade_count ≥ s.max_trades then (false, "达到最大交易次数")
  else
    match s.tickers contract with
    | none => (false, "无价格数据")
    | some t =>
      if t.ask ≤ 0 then (false, "无效的卖价")
      else (true, "可以买入，价格: " ++ toString t.ask)

/-- Source `should_place_sell_order`. -/
def should_place_sell_order (s : TraderState) (contract : String) : Bool × String :=
  match s.current_position contract with
  | none => (false, "无持仓")
  | some position =>
    if position.size ≤ 0 then (false, "无持仓")
    else
      match s.tickers contract with
      | none => (false, "无价格数据")
      | some t =>
        if t.bid ≤ 0 then (false, "无效的买价")
        else if calculate_spread_percentage t.bid position.entry_price ≤
            s.spread_threshold * 100 then
          (true, "价差达到阈值，可以卖出")
        else (false, "价差超出阈值，等待机会")

/-- Source `place_futures_order`: builds the order payload and emits the
authenticated request; in the model the send succeeds, so the function
returns `True` (its arguments only shape the outbound frame). -/
def place_futures_order (_contract : String) (_size : Int) (_price : ℚ) : Bool :=
  true

/-- Source `execute_buy_order`: emit the order, then record the position at
the cached `last` price when it is positive; a missing ticker raises a
`KeyError` that the source catches, returning `False` with no state change. -/
def execute_buy_order (s : TraderState) (contract : String) (now : ℚ) :
    Bool × TraderState :=
  if place_futures_order contract s.trade_amount 0 then
    match s.tickers contract with
    | none => (false, s)
    | some t =>
      if 0 < t.last then
        let newpos : String → Option Position := fun c =>
          if c = contract then
            some { size := s.trade_amount, entry_price := t.last, entry_time := now }
          else s.current_position c
        (true, { s with current_position := newpos })
      else (false, s)
  else (false, s)

/-- The trade-record dict built inside `execute_sell_order` when a close
succeeds (profit, spread percentage, and timing fields). -/
def trade_record_of (contract : String) (now : ℚ) (position : Position)
    (t : Ticker) : TradeRecord :=
  { contract := contract
    entry_price := position.entry_price
    exit_price := t.bid
    size := position.size
    profit := (t.bid - position.entry_price) * (position.size : ℚ)
    profit_pct := calculate_spread_percentage t.bid position.entry_price
    entry_time := position.entry_time
    exit_time := now
    duration := now - position.entry_time }

/-- Source `execute_sell_order`: fail when no position is recorded or the
cached bid is non-positive; otherwise emit the close order, append a trade
record, bump the trade counter and delete the position. -/
def execute_sell_order (s : TraderState) (contract : String) (now : ℚ) :
    Bool × TraderState :=
  match s.current_position contract with
  | none => (false, s)
  | some position =>
    match s.tickers contract with
    | none => (false, s)
    | some t =>
      if t.bid ≤ 0 then (false, s)
      else
        let trade_record := trade_record_of contract now position t
        if place_futures_order contract (-position.size) 0 then
          let closed : TraderState := { s with
            completed_trades := s.completed_trades ++ [trade_record],
            trade_count := s.trade_count + 1,
            current_position := fun c => if c = contract then none
              else s.current_position c }
          (true, closed)
        else (false, s)

/-- Source `stop_trading` (state effect only: clears the running flag; the
socket close and summary printing have no trading-state effect). -/
def stop_trading (s : TraderState) : TraderState :=
  { s with is_running := false }

/-- Source `check_trading_opportunities`: when running, try the buy branch,
then the sell branch on the resulting state; after a successful close, stop
the session when the trade counter has reached the budget. -/
def check_trading_opportunities (s : TraderState) (contract : String) (now : ℚ) :
    TraderState :=
  if s.is_running then
    let s1 := if (should_place_buy_order s contract).1 then
        (execute_buy_order s contract now).2
      else s
    if (should_place_sell_order s1 contract).1 then
      let result := execute_sell_order s1 contract now
      if result.1 then
        if result.2.trade_count ≥ result.2.max_trades then stop_trading result.2
        else result.2
      else result.2
    else s1
  else s

/-- One inbound ticker object; fields the venue may omit are `Option`s
(the source reads them with `.get(...)` defaults). -/
structure TickerMsg where
  contract : String
  last : Option ℚ
  bid : Option ℚ
  ask : Option ℚ
  volume_24h : Option ℚ
  change_percentage : Option ℚ
  mark_price : Option ℚ
  index_price : Option ℚ
  deriving DecidableEq

/-- Body of the per-ticker loop of `on_ticker_message`: for a tracked
contract, overwrite the cached ticker (defaulting bid/ask to
`last × (1 ∓ 0.0001)` and mark/index to `last`), then run
`check_trading_opportunities`. -/
def process_ticker (s : TraderState) (msg : TickerMsg) (now : ℚ) : TraderState :=
  if msg.contract ∈ s.contracts then
    let last_price := msg.last.getD 0
    let t : Ticker :=
      { last := last_price
        bid := msg.bid.getD (last_price * (9999 / 10000))
        ask := msg.ask.getD (last_price * (10001 / 10000))
        volume := msg.volume_24h.getD 0
        change_24h := msg.change_percentage.getD 0
        mark_price := msg.mark_price.getD last_price
        index_price := msg.index_price.getD last_price }
    let s1 := { s with tickers := fun c =>
      if c = msg.contract then some t else s.tickers c }
    check_trading_opportunities s1 msg.contract now
  else s

/-- Source `on_ticker_message`: a single dict is wrapped into a list, then
each ticker object is processed in order. -/
def on_ticker_message (s : TraderState) (msgs : List TickerMsg) (now : ℚ) :
    TraderState :=
  msgs.foldl (fun st msg => process_ticker st msg now) s

/-- Trading state established by `__init__` from the configuration. -/
def initState (contracts : List String) (amount : Int) (maxTrades : Nat)
    (threshold : ℚ) : TraderState :=
  { contracts := contracts
    trade_amount := amount
    max_trades := maxTrades
    spread_threshold := threshold
    current_position := fun _ => none
    trade_count := 0
    completed_trades := []
    is_running := false
    tickers := fun _ => none }

/-- Source `on_open` (state effect only: subscriptions and the heartbeat
thread do not touch trading state): sets the running flag. -/
def on_open (s : TraderState) : TraderState :=
  { s with is_running := true }

/-- A freshly started session: initialization followed by the WebSocket
open callback. -/
def startState (contracts : List String) (amount : Int) (maxTrades : Nat)
    (threshold : ℚ) : TraderState :=
  on_open (initState contracts amount maxTrades threshold)

/-- A whole session run: the started session processing a sequence of
inbound ticker frames, each frame being a list of ticker objects together
with its arrival time. -/
def runSession (contracts : List String) (amount : Int) (maxTrades : Nat)
    (threshold : ℚ) (frames : List (List TickerMsg × ℚ)) : TraderState :=
  frames.foldl (fun st fr => on_ticker_message st fr.1 fr.2)
    (startState contracts amount maxTrades threshold)

/-- Authentication object attached to authenticated outbound requests. -/
structure AuthObj where
  method : String
  KEY : String
  SIGN : String
  deriving DecidableEq

/-- Outbound WebSocket envelope built by `_request`
(`{time, channel, event, payload, auth?}`), polymorphic in the payload. -/
structure WsRequest (α : Type) where
  time : Int
  channel : String
  event : Option String
  payload : Option α
  auth : Option AuthObj

/-- Source `get_sign`: lowercase hex digest of HMAC-SHA512 keyed by the API
secret. The HMAC-SHA512 primitive comes from the Python standard library
(`hmac`/`hashlib`, external to this repository), so it is taken here as an
abstract parameter `hmac_sha512_hex : secret → message → hexdigest`. -/
def get_sign (hmac_sha512_hex : String → String → String)
    (api_secret message : String) : String :=
  hmac_sha512_hex api_secret message

/-- Rendering of a possibly-absent `event` inside a Python f-string
(`None` prints as the four characters `None`). -/
def pyStr : Option String → String
  | none => "None"
  | some s => s

/-- Source `_request`: build the envelope from the current time; when
authentication is required, sign the canonical string
`channel=<channel>&event=<event>&time=<time>` (with the very same time
value as the envelope) and attach the auth object. -/
def _request {α : Type} (hmac_sha512_hex : String → String → String)
    (api_key api_secret : String) (channel : String) (event : Option String)
    (payload : Option α) (auth_required : Bool) (current_time : Int) :
    WsRequest α :=
  let data : WsRequest α :=
    { time := current_time, channel := channel, event := event,
      payload := payload, auth := none }
  if auth_required then
    let message := "channel=" ++ channel ++ "&event=" ++ pyStr event ++
      "&time=" ++ toString current_time
    let auth : AuthObj :=
      { method := "api_key", KEY := api_key,
        SIGN := get_sign hmac_sha512_hex api_secret message }
    { data with auth := some auth }
  else data

/-- Sample inbound ticker: `last=100`, bid/ask omitted (the venue did not
provide them), as in the spec scenario. -/
def msgLastOnly : TickerMsg :=
  { contract := "BTC_USDT", last := some 100, bid := none, ask := none,
    volume_24h := none, change_percentage := none, mark_price := none,
    index_price := none }

/-- Sample inbound ticker whose bid (90) is far below `last` (100), so a
buy opens a position that the same frame cannot close. -/
def msgWideSpread : TickerMsg :=
  { contract := "BTC_USDT", last := some 100, bid := some 90,
    ask := some (10001 / 100), volume_24h := none, change_percentage := none,
    mark_price := none, index_price := none }

/-- A started single-contract session (`maxTrades = 1`,
`spreadThreshold = 0.0005`, amount 1) whose ticker cache holds exactly what
`msgLastOnly` produces: `last=100`, defaulted `bid=99.99`, `ask=100.01`. -/
def sampleReady : TraderState :=
  { startState ["BTC_USDT"] 1 1 (5 / 10000) with
    tickers := fun c =>
      if c = "BTC_USDT" then
        some { last := 100, bid := 9999 / 100, ask := 10001 / 100,
               volume := 0, change_24h := 0, mark_price := 100,
               index_price := 100 }
      else none }

/-- A session holding an open position (entry 100, size 1) with a cached
bid of 99.95: the spread is exactly 0.05%, the inclusive boundary case. -/
def sellStateA : TraderState :=
  { startState ["BTC_USDT"] 1 1 (5 / 10000) with
    current_position := fun c =>
      if c = "BTC_USDT" then
        some { size := 1, entry_price := 100, entry_time := 0 }
      else none,
    tickers := fun c =>
      if c = "BTC_USDT" then
        some { last := 100, bid := 9995 / 100, ask := 10005 / 100,
               volume := 0, change_24h := 0, mark_price := 100,
               index_price := 100 }
      else none }

/-- Like `sellStateA` but with a cached bid of 99.90: spread 0.10% exceeds
the 0.05% threshold. -/
def sellStateB : TraderState :=
  { startState ["BTC_USDT"] 1 1 (5 / 10000) with
    current_position := fun c =>
      if c = "BTC_USDT" then
        some { size := 1, entry_price := 100, entry_time := 0 }
      else none,
    tickers := fun c =>
      if c = "BTC_USDT" then
        some { last := 100, bid := 999 / 10, ask := 10005 / 100,
               volume := 0, change_24h := 0, mark_price := 100,
               index_price := 100 }
      else none }

/-- A started session whose cached ticker has a non-positive `last`. -/
def zeroLastState : TraderState :=
  { startState ["BTC_USDT"] 1 1 (5 / 10000) with
    tickers := fun c =>
      if c = "BTC_USDT" then
        some { last := 0, bid := 1, ask := 1, volume := 0, change_24h := 0,
               mark_price := 0, index_price := 0 }
      else none }

/-- Ledger bookkeeping invariant: the trade counter equals the length of
the completed-trade history. -/
def CountInv (s : TraderState) : Prop :=
  s.trade_count = s.completed_trades.length

/-- Budget invariant: the trade counter never exceeds the configured
maximum. -/
def BudgetInv (s : TraderState) : Prop :=
  s.trade_count ≤ s.max_trades

/-- While the session is running, any open position implies the budget is
not yet exhausted (positions are only opened under the budget check, and
the session stops as soon as a close reaches the budget). -/
def OpenBudget (s : TraderState) : Prop :=
  s.is_running = true → ∀ c p, s.current_position c = some p →
    s.trade_count < s.max_trades

/-- In a session run driven only by ticker messages (no external stop), a
cleared running flag can only come from the budget check after a close, so
the counter then sits exactly at the budget. -/
def StoppedAtBudget (s : TraderState) : Prop :=
  s.is_running = false → s.trade_count = s.max_trades

/-- Every stored position was recorded by `execute_buy_order`: positive
entry price and size equal to the configured trade amount. -/
def PosFields (s : TraderState) : Prop :=
  ∀ c p, s.current_position c = some p →
    0 < p.entry_price ∧ p.size = s.trade_amount

/-- Conjunction of the state invariants preserved by every ticker-driven
step. -/
def SessionInv (s : TraderState) : Prop :=
  CountInv s ∧ BudgetInv s ∧ OpenBudget s ∧ StoppedAtBudget s ∧ PosFields s

theorem execute_buy_cases (s : TraderState) (contract : String) (now : ℚ) :
    execute_buy_order s contract now = (false, s) ∨
    ∃ t : Ticker, s.tickers contract = some t ∧ 0 < t.last ∧
      execute_buy_order s contract now = (true, { s with
        current_position := fun c =>
          if c = contract then
            some { size := s.trade_amount, entry_price := t.last,
                   entry_time := now }
          else s.current_position c }) := by
  unfold execute_buy_order place_futures_order
  cases htick : s.tickers contract with
  | none => left; simp [htick]
  | some t =>
    by_cases hl : 0 < t.last
    · right; exact ⟨t, rfl, hl, by simp [htick, hl]⟩
    · left; simp [htick, hl]

theorem execute_sell_cases (s : TraderState) (contract : String) (now : ℚ) :
    execute_sell_order s contract now = (false, s) ∨
    ∃ (position : Position) (t : Ticker),
      s.current_position contract = some position ∧
      s.tickers contract = some t ∧ 0 < t.bid ∧
      execute_sell_order s contract now = (true, { s with
        completed_trades := s.completed_trades ++
          [trade_record_of contract now position t],
        trade_count := s.trade_count + 1,
        current_position := fun c => if c = contract then none
          else s.current_position c }) := by
  unfold execute_sell_order place_futures_order
  cases hpos : s.current_position contract with
  | none => left; simp [hpos]
  | some position =>
    cases htick : s.tickers contract with
    | none => left; simp [hpos, htick]
    | some t =>
      by_cases hb : t.bid ≤ 0
      · left; simp [hpos, htick, hb]
      · right
        refine ⟨position, t, rfl, rfl, lt_of_not_le hb, ?_⟩
        simp [hpos, htick, hb]

theorem should_buy_budget (s : TraderState) (contract : String)
    (h : (should_place_buy_order s contract).1 = true) :
    s.trade_count < s.max_trades := by
  unfold should_place_buy_order at h
  split at h
  · simp at h
  · split at h
    · simp at h
    · omega

theorem should_sell_pos (s : TraderState) (contract : String)
    (h : (should_place_sell_order s contract).1 = true) :
    ∃ p, s.current_position contract = some p := by
  unfold should_place_sell_order at h
  split at h
  · simp at h
  · next position heq => exact ⟨position, heq⟩

theorem buy_preserves (s : TraderState) (contract : String) (now : ℚ) :
    (execute_buy_order s contract now).2.trade_count = s.trade_count ∧
    (execute_buy_order s contract now).2.completed_trades = s.completed_trades ∧
    (execute_buy_order s contract now).2.is_running = s.is_running ∧
    (execute_buy_order s contract now).2.trade_amount = s.trade_amount ∧
    (execute_buy_order s contract now).2.max_trades = s.max_trades ∧
    (execute_buy_order s contract now).2.spread_threshold = s.spread_threshold ∧
    (execute_buy_order s contract now).2.contracts = s.contracts ∧
    (execute_buy_order s contract now).2.tickers = s.tickers := by
  rcases execute_buy_cases s contract now with h | ⟨t, _, _, h⟩ <;> rw [h] <;>
    exact ⟨rfl, rfl, rfl, rfl, rfl, rfl, rfl, rfl⟩

theorem sell_preserves (s : TraderState) (contract : String) (now : ℚ) :
    (execute_sell_order s contract now).2.is_running = s.is_running ∧
    (execute_sell_order s contract now).2.trade_amount = s.trade_amount ∧
    (execute_sell_order s contract now).2.max_trades = s.max_trades ∧
    (execute_sell_order s contract now).2.spread_threshold = s.spread_threshold ∧
    (execute_sell_order s contract now).2.contracts = s.contracts ∧
    (execute_sell_order s contract now).2.tickers = s.tickers := by
  rcases execute_sell_cases s contract now with h | ⟨p, t, _, _, _, h⟩ <;> rw [h] <;>
    exact ⟨rfl, rfl, rfl, rfl, rfl, rfl⟩
theorem inv_buy (s : TraderState) (contract : String) (now : ℚ)
    (h : SessionInv s) (hrun : s.is_running = true)
    (hb : (should_place_buy_order s contract).1 = true) :
    SessionInv (execute_buy_order s contract now).2 := by
  obtain ⟨hc, hbud, ho, hst, hpf⟩ := h
  rcases execute_buy_cases s contract now with heq | ⟨t, htick, hlast, heq⟩
  · rw [heq]; exact ⟨hc, hbud, ho, hst, hpf⟩
  · rw [heq]
    refine ⟨hc, hbud, ?_, ?_, ?_⟩
    · intro _ _ _ _
      exact should_buy_budget s contract hb
    · intro habs
      exact Bool.noConfusion (hrun.symm.trans habs)
    · intro x p hp
      by_cases hx : x = contract
      · simp [hx] at hp
        subst hp
        exact ⟨hlast, rfl⟩
      · simp only [if_neg hx] at hp
        exact hpf x p hp

theorem inv_sell_phase (s1 : TraderState) (contract : String) (now : ℚ)
    (h : SessionInv s1) (hrun : s1.is_running = true) :
    SessionInv (if (should_place_sell_order s1 contract).1 = true then
      (if (execute_sell_order s1 contract now).1 = true then
        (if (execute_sell_order s1 contract now).2.trade_count ≥
            (execute_sell_order s1 contract now).2.max_trades then
          stop_trading (execute_sell_order s1 contract now).2
        else (execute_sell_order s1 contract now).2)
      else (execute_sell_order s1 contract now).2)
    else s1) := by
  by_cases hs : (should_place_sell_order s1 contract).1 = true
  · rw [if_pos hs]
    rcases execute_sell_cases s1 contract now with heq | ⟨p, t, hpos, htick, hbid, heq⟩
    · simp only [heq]
      exact h
    · obtain ⟨hc, hbud, ho, hst, hpf⟩ := h
      have hlt : s1.trade_count < s1.max_trades := ho hrun contract p hpos
      simp only [heq, if_true]
      by_cases hge : s1.trade_count + 1 ≥ s1.max_trades
      · simp only [if_pos hge, SessionInv, CountInv, BudgetInv, OpenBudget,
          StoppedAtBudget, PosFields, stop_trading]
        refine ⟨?_, ?_, ?_, ?_, ?_⟩
        · have hc2 : s1.trade_count = s1.completed_trades.length := hc
          simp only [List.length_append, List.length_singleton]
          omega
        · omega
        · intro habs
          exact Bool.noConfusion habs
        · intro _
          omega
        · intro x q hq
          by_cases hx : x = contract
          · simp [hx] at hq
          · simp only [if_neg hx] at hq
            exact hpf x q hq
      · simp only [if_neg hge, SessionInv, CountInv, BudgetInv, OpenBudget,
          StoppedAtBudget, PosFields]
        refine ⟨?_, ?_, ?_, ?_, ?_⟩
        · have hc2 : s1.trade_count = s1.completed_trades.length := hc
          simp only [List.length_append, List.length_singleton]
          omega
        · omega
        · intro _ _ _ _
          omega
        · intro habs
          exact Bool.noConfusion (hrun.symm.trans habs)
        · intro x q hq
          by_cases hx : x = contract
          · simp [hx] at hq
          · simp only [if_neg hx] at hq
            exact hpf x q hq
  · rw [if_neg hs]
    exact h

theorem inv_check (s : TraderState) (contract : String) (now : ℚ)
    (h : SessionInv s) : SessionInv (check_trading_opportunities s contract now) := by
  unfold check_trading_opportunities
  cases hrun : s.is_running with
  | false => simp only [hrun, Bool.false_eq_true, if_false]; exact h
  | true =>
    simp only [hrun, if_true]
    by_cases hb : (should_place_buy_order s contract).1 = true
    · simp only [if_pos hb]
      exact inv_sell_phase _ contract now (inv_buy s contract now h hrun hb)
        ((buy_preserves s contract now).2.2.1.trans hrun)
    · simp only [if_neg hb]
      exact inv_sell_phase s contract now h hrun

theorem inv_process (s : TraderState) (msg : TickerMsg) (now : ℚ)
    (h : SessionInv s) : SessionInv (process_ticker s msg now) := by
  unfold process_ticker
  by_cases hm : msg.contract ∈ s.contracts
  · simp only [if_pos hm]
    exact inv_check _ msg.contract now h
  · simp only [if_neg hm]
    exact h

theorem inv_on_ticker (s : TraderState) (msgs : List TickerMsg) (now : ℚ)
    (h : SessionInv s) : SessionInv (on_ticker_message s msgs now) := by
  unfold on_ticker_message
  induction msgs generalizing s with
  | nil => exact h
  | cons m ms ih => exact ih _ (inv_process s m now h)

theorem inv_start (contracts : List String) (amount : Int) (maxTrades : Nat)
    (threshold : ℚ) :
    SessionInv (startState contracts amount maxTrades threshold) := by
  refine ⟨rfl, Nat.zero_le _, ?_, ?_, ?_⟩
  · intro _ c p hp
    exact Option.noConfusion hp
  · intro habs
    exact Bool.noConfusion habs
  · intro c p hp
    exact Option.noConfusion hp

theorem inv_run (contracts : List String) (amount : Int) (maxTrades : Nat)
    (threshold : ℚ) (frames : List (List TickerMsg × ℚ)) :
    SessionInv (runSession contracts amount maxTrades threshold frames) := by
  unfold runSession
  have step : ∀ s, SessionInv s →
      SessionInv (frames.foldl (fun st fr => on_ticker_message st fr.1 fr.2) s) := by
    induction frames with
    | nil => intro s hs; exact hs
    | cons f fs ih => intro s hs; exact ih _ (inv_on_ticker s f.1 f.2 hs)
  exact step _ (inv_start contracts amount maxTrades threshold)

theorem sell_phase_config (s1 : TraderState) (contract : String) (now : ℚ) :
    (if (should_place_sell_order s1 contract).1 = true then
      (if (execute_sell_order s1 contract now).1 = true then
        (if (execute_sell_order s1 contract now).2.trade_count ≥
            (execute_sell_order s1 contract now).2.max_trades then
          stop_trading (execute_sell_order s1 contract now).2
        else (execute_sell_order s1 contract now).2)
      else (execute_sell_order s1 contract now).2)
    else s1).trade_amount = s1.trade_amount ∧
    (if (should_place_sell_order s1 contract).1 = true then
      (if (execute_sell_order s1 contract now).1 = true then
        (if (execute_sell_order s1 contract now).2.trade_count ≥
            (execute_sell_order s1 contract now).2.max_trades then
          stop_trading (execute_sell_order s1 contract now).2
        else (execute_sell_order s1 contract now).2)
      else (execute_sell_order s1 contract now).2)
    else s1).max_trades = s1.max_trades := by
  by_cases hs : (should_place_sell_order s1 contract).1 = true
  · simp only [if_pos hs]
    by_cases h1 : (execute_sell_order s1 contract now).1 = true
    · simp only [if_pos h1]
      by_cases hge : (execute_sell_order s1 contract now).2.trade_count ≥
          (execute_sell_order s1 contract now).2.max_trades
      · simp only [if_pos hge]
        exact ⟨(sell_preserves s1 contract now).2.1,
          (sell_preserves s1 contract now).2.2.1⟩
      · simp only [if_neg hge]
        exact ⟨(sell_preserves s1 contract now).2.1,
          (sell_preserves s1 contract now).2.2.1⟩
    · simp only [if_neg h1]
      exact ⟨(sell_preserves s1 contract now).2.1,
        (sell_preserves s1 contract now).2.2.1⟩
  · simp only [if_neg hs]
    trivial

theorem check_config (s : TraderState) (contract : String) (now : ℚ) :
    (check_trading_opportunities s contract now).trade_amount = s.trade_amount ∧
    (check_trading_opportunities s contract now).max_trades = s.max_trades := by
  unfold check_trading_opportunities
  cases hrun : s.is_running with
  | false => simp only [hrun, Bool.false_eq_true, if_false]; trivial
  | true =>
    simp only [hrun, if_true]
    by_cases hb : (should_place_buy_order s contract).1 = true
    · simp only [if_pos hb]
      refine ⟨(sell_phase_config _ contract now).1.trans
          (buy_preserves s contract now).2.2.2.1,
        (sell_phase_config _ contract now).2.trans
          (buy_preserves s contract now).2.2.2.2.1⟩
    · simp only [if_neg hb]
      exact sell_phase_config s contract now

theorem process_config (s : TraderState) (msg : TickerMsg) (now : ℚ) :
    (process_ticker s msg now).trade_amount = s.trade_amount ∧
    (process_ticker s msg now).max_trades = s.max_trades := by
  unfold process_ticker
  by_cases hm : msg.contract ∈ s.contracts
  · simp only [if_pos hm]
    exact check_config _ msg.contract now
  · simp only [if_neg hm]
    trivial

theorem run_config (contracts : List String) (amount : Int) (maxTrades : Nat)
    (threshold : ℚ) (frames : List (List TickerMsg × ℚ)) :
    (runSession contracts amount maxTrades threshold frames).trade_amount = amount ∧
    (runSession contracts amount maxTrades threshold frames).max_trades = maxTrades := by
  unfold runSession
  have step : ∀ s, (frames.foldl (fun st fr => on_ticker_message st fr.1 fr.2)
        s).trade_amount = s.trade_amount ∧
      (frames.foldl (fun st fr => on_ticker_message st fr.1 fr.2)
        s).max_trades = s.max_trades := by
    induction frames with
    | nil => intro s; exact ⟨rfl, rfl⟩
    | cons f fs ih =>
      intro s
      have hmsg : ∀ s2, (on_ticker_message s2 f.1 f.2).trade_amount =
          s2.trade_amount ∧
          (on_ticker_message s2 f.1 f.2).max_trades = s2.max_trades := by
        intro s2
        unfold on_ticker_message
        induction f.1 generalizing s2 with
        | nil => exact ⟨rfl, rfl⟩
        | cons m ms ihm =>
          refine ⟨(ihm _).1.trans (process_config s2 m f.2).1,
            (ihm _).2.trans (process_config s2 m f.2).2⟩
      refine ⟨(ih _).1.trans (hmsg s).1, (ih _).2.trans (hmsg s).2⟩
  exact step _

theorem sell_phase_stop_iff (s1 : TraderState) (c : String) (now : ℚ)
    (h : SessionInv s1) (hrun : s1.is_running = true) :
    ((if (should_place_sell_order s1 c).1 = true then
       (if (execute_sell_order s1 c now).1 = true then
         (if (execute_sell_order s1 c now).2.trade_count ≥
             (execute_sell_order s1 c now).2.max_trades then
           stop_trading (execute_sell_order s1 c now).2
         else (execute_sell_order s1 c now).2)
       else (execute_sell_order s1 c now).2)
     else s1).is_running = false ↔
    ((if (should_place_sell_order s1 c).1 = true then
       (if (execute_sell_order s1 c now).1 = true then
         (if (execute_sell_order s1 c now).2.trade_count ≥
             (execute_sell_order s1 c now).2.max_trades then
           stop_trading (execute_sell_order s1 c now).2
         else (execute_sell_order s1 c now).2)
       else (execute_sell_order s1 c now).2)
     else s1).trade_count = s1.max_trades ∧
     (if (should_place_sell_order s1 c).1 = true then
       (if (execute_sell_order s1 c now).1 = true then
         (if (execute_sell_order s1 c now).2.trade_count ≥
             (execute_sell_order s1 c now).2.max_trades then
           stop_trading (execute_sell_order s1 c now).2
         else (execute_sell_order s1 c now).2)
       else (execute_sell_order s1 c now).2)
     else s1).trade_count = s1.trade_count + 1)) := by
  by_cases hs : (should_place_sell_order s1 c).1 = true
  · rw [if_pos hs]
    rcases execute_sell_cases s1 c now with heq | ⟨p, t, hpos, htick, hbid, heq⟩
    · simp only [heq]
      constructor
      · intro habs
        exact Bool.noConfusion (hrun.symm.trans habs)
      · rintro ⟨_, habs⟩
        have h2 : s1.trade_count = s1.trade_count + 1 := habs
        exact absurd h2 (by omega)
    · obtain ⟨hc, hbud, ho, hst, hpf⟩ := h
      have hlt := ho hrun c p hpos
      simp only [heq, if_true]
      by_cases hge : s1.trade_count + 1 ≥ s1.max_trades
      · simp only [if_pos hge]
        constructor
        · intro _
          constructor
          · show s1.trade_count + 1 = s1.max_trades
            omega
          · rfl
        · intro _
          rfl
      · simp only [if_neg hge]
        constructor
        · intro habs
          exact Bool.noConfusion (hrun.symm.trans habs)
        · rintro ⟨h1, _⟩
          have h2 : s1.trade_count + 1 = s1.max_trades := h1
          exact absurd h2 (by omega)
  · rw [if_neg hs]
    constructor
    · intro habs
      exact Bool.noConfusion (hrun.symm.trans habs)
    · rintro ⟨_, habs⟩
      have h2 : s1.trade_count = s1.trade_count + 1 := habs
      exact absurd h2 (by omega)

/-- C1: the spec claims `spreadPct(any, ref) = 100` for `ref ≤ 0`; the code
actually returns `Decimal('1.0')` — i.e. the value 1 in the percent units
of the function's normal branch — while its own comment announces 100%. -/
theorem c1_sentinel_value_is_one_not_hundred :
    calculate_spread_percentage 50 0 = 1 ∧
    calculate_spread_percentage 100 (-1) = 1 ∧
    (1 : ℚ) ≠ 100 := by
  norm_num [calculate_spread_percentage]

/-- C7: attempting a close with no recorded position for the instrument
returns failure and leaves the whole state (position map, trade counter,
history) unchanged. -/
theorem c7_sell_without_position_noop (s : TraderState) (c : String) (now : ℚ)
    (h : s.current_position c = none) :
    execute_sell_order s c now = (false, s) := by
  unfold execute_sell_order
  simp only [h]

/-- Witness for C7 at a concrete started session with no position. -/
theorem c7_witness :
    execute_sell_order sampleReady "BTC_USDT" 0 = (false, sampleReady) :=
  c7_sell_without_position_noop sampleReady "BTC_USDT" 0 rfl

/-- C8: an authenticated request carries auth
`{method: api_key, KEY, SIGN}` where SIGN is the HMAC-SHA512 hex digest
(abstracted as the `hmac` parameter, keyed by the secret) of exactly
`channel=<channel>&event=<event>&time=<time>` built from the same time
value placed in the envelope; unauthenticated requests carry no auth. -/
theorem c8_auth_canonical {α : Type} (hmac : String → String → String)
    (api_key api_secret channel : String) (event : Option String)
    (payload : Option α) (t : Int) :
    (_request hmac api_key api_secret channel event payload true t).auth =
      some ⟨"api_key", api_key, hmac api_secret ("channel=" ++ channel ++
        "&event=" ++ pyStr event ++ "&time=" ++ toString t)⟩ ∧
    (_request hmac api_key api_secret channel event payload true t).time = t ∧
    (_request hmac api_key api_secret channel event payload false t).auth =
      none := by
  exact ⟨rfl, rfl, rfl⟩

/-- C2: the per-instrument position dictionary holds at most one position
per instrument after any run, and whenever a positive-size position is
recorded a buy decision is ineligible with the "already holding" reason. -/
theorem c2_no_double_entry (contracts : List String) (amount : Int)
    (maxTrades : Nat) (threshold : ℚ) (frames : List (List TickerMsg × ℚ))
    (c : String) :
    (∀ p q : Position,
      (runSession contracts amount maxTrades threshold frames).current_position
        c = some p →
      (runSession contracts amount maxTrades threshold frames).current_position
        c = some q → p = q) ∧
    (∀ p : Position,
      (runSession contracts amount maxTrades threshold frames).current_position
        c = some p → 0 < p.size →
      should_place_buy_order
        (runSession contracts amount maxTrades threshold frames) c =
        (false, "已有持仓")) := by
  constructor
  · intro p q hp hq
    rw [hp] at hq
    exact Option.some.inj hq
  · intro p hp hsz
    unfold should_place_buy_order
    have hguard : position_size_pos
        ((runSession contracts amount maxTrades threshold frames).current_position
          c) = true := by
      rw [hp]
      simp [position_size_pos, hsz]
    rw [if_pos hguard]

/-- Witness for C2: a wide-spread frame leaves an open position, after
which the buy decision reports the holding. -/
theorem c2_witness :
    (runSession ["BTC_USDT"] 1 2 (5 / 10000)
      [([msgWideSpread], 0)]).current_position "BTC_USDT" =
      some { size := 1, entry_price := 100, entry_time := 0 } ∧
    should_place_buy_order
      (runSession ["BTC_USDT"] 1 2 (5 / 10000) [([msgWideSpread], 0)])
      "BTC_USDT" = (false, "已有持仓") := by
  have hp : (runSession ["BTC_USDT"] 1 2 (5 / 10000)
      [([msgWideSpread], 0)]).current_position "BTC_USDT" =
      some { size := 1, entry_price := 100, entry_time := 0 } := by
    norm_num [runSession, startState, initState, on_open, on_ticker_message,
      process_ticker, check_trading_opportunities, should_place_buy_order,
      should_place_sell_order, execute_buy_order, execute_sell_order,
      place_futures_order, position_size_pos, calculate_spread_percentage,
      stop_trading, msgWideSpread, List.foldl, Option.getD, abs_of_nonneg,
      abs_of_nonpos, abs_neg]
  exact ⟨hp, (c2_no_double_entry ["BTC_USDT"] 1 2 (5 / 10000)
    [([msgWideSpread], 0)] "BTC_USDT").2 _ hp (by norm_num)⟩

/-- C3: with no external stop, in one trading-opportunity check from a
running state satisfying the session invariants, the running flag is
cleared exactly when this check's close pushed the counter to the budget;
and along any ticker-driven run, while the counter is below the budget the
session is still running. -/
theorem c3_stop_exactly_at_budget :
    (∀ (s : TraderState) (c : String) (now : ℚ), SessionInv s →
      s.is_running = true →
      ((check_trading_opportunities s c now).is_running = false ↔
        ((check_trading_opportunities s c now).trade_count = s.max_trades ∧
         (check_trading_opportunities s c now).trade_count =
           s.trade_count + 1))) ∧
    (∀ (contracts : List String) (amount : Int) (maxTrades : Nat)
      (threshold : ℚ) (frames : List (List TickerMsg × ℚ)),
      (runSession contracts amount maxTrades threshold frames).trade_count <
        maxTrades →
      (runSession contracts amount maxTrades threshold frames).is_running =
        true) := by
  constructor
  · intro s c now hInv hrun
    unfold check_trading_opportunities
    simp only [hrun, if_true]
    by_cases hb : (should_place_buy_order s c).1 = true
    · simp only [if_pos hb]
      have hs1run : (execute_buy_order s c now).2.is_running = true :=
        (buy_preserves s c now).2.2.1.trans hrun
      have hs1cnt : (execute_buy_order s c now).2.trade_count =
          s.trade_count := (buy_preserves s c now).1
      have hs1max : (execute_buy_order s c now).2.max_trades =
          s.max_trades := (buy_preserves s c now).2.2.2.2.1
      have hs1inv : SessionInv (execute_buy_order s c now).2 :=
        inv_buy s c now hInv hrun hb
      rw [← hs1max, ← hs1cnt]
      exact sell_phase_stop_iff _ c now hs1inv hs1run
    · simp only [if_neg hb]
      exact sell_phase_stop_iff s c now hInv hrun
  · intro contracts amount maxTrades threshold frames h
    cases hr : (runSession contracts amount maxTrades threshold
        frames).is_running with
    | true => rfl
    | false =>
      have hstop := (inv_run contracts amount maxTrades threshold
        frames).2.2.2.1 hr
      rw [(run_config contracts amount maxTrades threshold frames).2] at hstop
      exact absurd hstop (Nat.ne_of_lt h)

/-- Witness for C3: from `sampleReady` (running, budget 1, spread within
threshold), one check closes a trade and clears the running flag. -/
theorem c3_witness :
    (check_trading_opportunities sampleReady "BTC_USDT" 0).is_running =
      false := by
  have hinv : SessionInv sampleReady :=
    inv_start ["BTC_USDT"] 1 1 (5 / 10000)
  refine (c3_stop_exactly_at_budget.1 sampleReady "BTC_USDT" 0 hinv
    rfl).mpr ?_
  constructor <;>
    norm_num [sampleReady, startState, initState, on_open,
      check_trading_opportunities, should_place_buy_order,
      should_place_sell_order, execute_buy_order, execute_sell_order,
      place_futures_order, position_size_pos, calculate_spread_percentage,
      stop_trading, abs_of_nonneg, abs_of_nonpos, abs_neg]

/-- C4: with an open positive-size position and a cached ticker with a
positive bid, the sell decision is eligible exactly when the spread
percentage is at most `spreadThreshold × 100` (inclusive boundary). -/
theorem c4_sell_iff_spread_within (s : TraderState) (c : String)
    (p : Position) (t : Ticker) (hp : s.current_position c = some p)
    (hsz : 0 < p.size) (ht : s.tickers c = some t) (hb : 0 < t.bid) :
    ((should_place_sell_order s c).1 = true ↔
      calculate_spread_percentage t.bid p.entry_price ≤
        s.spread_threshold * 100) := by
  unfold should_place_sell_order
  have h1 : ¬ p.size ≤ 0 := not_le.mpr hsz
  have h2 : ¬ t.bid ≤ 0 := not_le.mpr hb
  simp only [hp, ht, if_neg h1, if_neg h2]
  by_cases hsp : calculate_spread_percentage t.bid p.entry_price ≤
      s.spread_threshold * 100
  · simp [if_pos hsp, hsp]
  · simp [if_neg hsp, hsp]

/-- Witness for C4: entry 100 and bid 99.95 (spread exactly 0.05% at
threshold 0.0005) is eligible; bid 99.90 (spread 0.10%) is not. -/
theorem c4_witness :
    (should_place_sell_order sellStateA "BTC_USDT").1 = true ∧
    (should_place_sell_order sellStateB "BTC_USDT").1 = false := by
  constructor
  · refine (c4_sell_iff_spread_within sellStateA "BTC_USDT"
      { size := 1, entry_price := 100, entry_time := 0 }
      { last := 100, bid := 9995 / 100, ask := 10005 / 100, volume := 0,
        change_24h := 0, mark_price := 100, index_price := 100 }
      rfl (by norm_num) rfl (by norm_num)).mpr ?_
    norm_num [calculate_spread_percentage, sellStateA, startState, initState,
      on_open, abs_of_nonneg, abs_of_nonpos, abs_neg]
  · have hiff := c4_sell_iff_spread_within sellStateB "BTC_USDT"
      { size := 1, entry_price := 100, entry_time := 0 }
      { last := 100, bid := 999 / 10, ask := 10005 / 100, volume := 0,
        change_24h := 0, mark_price := 100, index_price := 100 }
      rfl (by norm_num) rfl (by norm_num)
    have hno : ¬ calculate_spread_percentage (999 / 10) 100 ≤
        sellStateB.spread_threshold * 100 := by
      norm_num [calculate_spread_percentage, sellStateB, startState,
        initState, on_open, abs_of_nonneg, abs_of_nonpos, abs_neg]
    cases hres : (should_place_sell_order sellStateB "BTC_USDT").1 with
    | false => rfl
    | true => exact absurd (hiff.mp hres) hno

/-- C5 counterexample: after caching the ticker `last=100` with bid/ask
omitted (ask defaulting to 100.01), the triggered buy records the position
at entry price 100 — the cached `last` — not at the ask 100.01 claimed by
the spec scenario. -/
theorem c5_entry_price_counterexample :
    (should_place_buy_order sampleReady "BTC_USDT").1 = true ∧
    ((execute_buy_order sampleReady "BTC_USDT" 0).2.current_position
      "BTC_USDT").map Position.entry_price = some 100 ∧
    ¬ (((execute_buy_order sampleReady "BTC_USDT" 0).2.current_position
      "BTC_USDT").map Position.entry_price = some (10001 / 100)) := by
  refine ⟨?_, ?_, ?_⟩ <;>
    norm_num [sampleReady, startState, initState, on_open,
      should_place_buy_order, execute_buy_order, place_futures_order,
      position_size_pos]

/-- C5 amended: in the maxTrades=1, threshold=0.0005 session, the ticker
`last=100` with bid/ask omitted triggers a buy whose recorded position has
entry price 100 (the cached last price, not the defaulted ask 100.01); the
frame's completed trade record carries that same entry price. -/
theorem c5_entry_price_is_last :
    (should_place_buy_order sampleReady "BTC_USDT").1 = true ∧
    (execute_buy_order sampleReady "BTC_USDT" 0).2.current_position
      "BTC_USDT" = some { size := 1, entry_price := 100, entry_time := 0 } ∧
    (runSession ["BTC_USDT"] 1 1 (5 / 10000)
      [([msgLastOnly], 0)]).completed_trades.map TradeRecord.entry_price =
      [100] := by
  refine ⟨?_, ?_, ?_⟩ <;>
    norm_num [runSession, startState, initState, on_open, on_ticker_message,
      process_ticker, check_trading_opportunities, should_place_buy_order,
      should_place_sell_order, execute_buy_order, execute_sell_order,
      place_futures_order, position_size_pos, calculate_spread_percentage,
      stop_trading, trade_record_of, msgLastOnly, sampleReady, List.foldl,
      Option.getD, abs_of_nonneg, abs_of_nonpos, abs_neg]

/-- C6: after any run the trade counter equals the history length and
stays within the configured budget; a successful close bumps the counter
by exactly one while appending exactly one record, a failed close changes
nothing, and a buy never touches counter or history. -/
theorem c6_trade_count_accounting :
    (∀ (contracts : List String) (amount : Int) (maxTrades : Nat)
      (threshold : ℚ) (frames : List (List TickerMsg × ℚ)),
      (runSession contracts amount maxTrades threshold frames).trade_count =
        (runSession contracts amount maxTrades threshold
          frames).completed_trades.length ∧
      (runSession contracts amount maxTrades threshold frames).trade_count ≤
        maxTrades) ∧
    (∀ (s : TraderState) (c : String) (now : ℚ),
      (execute_sell_order s c now).1 = true →
      (execute_sell_order s c now).2.trade_count = s.trade_count + 1 ∧
      ∃ tr, (execute_sell_order s c now).2.completed_trades =
        s.completed_trades ++ [tr]) ∧
    (∀ (s : TraderState) (c : String) (now : ℚ),
      (execute_sell_order s c now).1 = false →
      (execute_sell_order s c now).2 = s) ∧
    (∀ (s : TraderState) (c : String) (now : ℚ),
      (execute_buy_order s c now).2.trade_count = s.trade_count ∧
      (execute_buy_order s c now).2.completed_trades =
        s.completed_trades) := by
  refine ⟨?_, ?_, ?_, ?_⟩
  · intro contracts amount maxTrades threshold frames
    have h := inv_run contracts amount maxTrades threshold frames
    refine ⟨h.1, ?_⟩
    have hb := h.2.1
    unfold BudgetInv at hb
    rw [(run_config contracts amount maxTrades threshold frames).2] at hb
    exact hb
  · intro s c now h1
    rcases execute_sell_cases s c now with heq | ⟨p, t, _, _, _, heq⟩
    · rw [heq] at h1
      exact Bool.noConfusion h1
    · rw [heq]
      exact ⟨rfl, trade_record_of c now p t, rfl⟩
  · intro s c now h1
    rcases execute_sell_cases s c now with heq | ⟨p, t, _, _, _, heq⟩
    · rw [heq]
    · rw [heq] at h1
      exact Bool.noConfusion h1
  · intro s c now
    exact ⟨(buy_preserves s c now).1, (buy_preserves s c now).2.1⟩

/-- Witness for C6: a concrete successful close from `sellStateA` bumps
the counter from 0 to 1 and appends one record. -/
theorem c6_witness :
    (execute_sell_order sellStateA "BTC_USDT" 5).2.trade_count =
      sellStateA.trade_count + 1 ∧
    ∃ tr, (execute_sell_order sellStateA "BTC_USDT" 5).2.completed_trades =
      sellStateA.completed_trades ++ [tr] :=
  c6_trade_count_accounting.2.1 sellStateA "BTC_USDT" 5 (by
    norm_num [execute_sell_order, sellStateA, startState, initState, on_open,
      place_futures_order, trade_record_of, calculate_spread_percentage])

/-- C9: the ticker `last=100` with bid/ask omitted, under threshold 0.0005
with no prior position and budget 1, makes a single trading-opportunity
pass open a position at the last price and close it in the same frame
(defaulted bid 99.99 gives spread 0.01% ≤ 0.05%), incrementing the trade
counter within that one frame. -/
theorem c9_same_frame_open_and_close :
    (runSession ["BTC_USDT"] 1 1 (5 / 10000) [([msgLastOnly], 0)]).trade_count
      = 1 ∧
    (runSession ["BTC_USDT"] 1 1 (5 / 10000)
      [([msgLastOnly], 0)]).current_position "BTC_USDT" = none ∧
    (runSession ["BTC_USDT"] 1 1 (5 / 10000)
      [([msgLastOnly], 0)]).completed_trades.map
      (fun r => (r.entry_price, r.exit_price, r.profit_pct)) =
      [(100, 9999 / 100, 1 / 100)] ∧
    (runSession ["BTC_USDT"] 1 1 (5 / 10000) [([msgLastOnly], 0)]).is_running
      = false := by
  refine ⟨?_, ?_, ?_, ?_⟩ <;>
    norm_num [runSession, startState, initState, on_open, on_ticker_message,
      process_ticker, check_trading_opportunities, should_place_buy_order,
      should_place_sell_order, execute_buy_order, execute_sell_order,
      place_futures_order, position_size_pos, calculate_spread_percentage,
      stop_trading, trade_record_of, msgLastOnly, List.foldl, Option.getD,
      abs_of_nonneg, abs_of_nonpos, abs_neg]

/-- C10: every position ever stored has a positive entry price and size
equal to the configured trade amount; a buy whose cached last price is
non-positive records nothing and reports failure. -/
theorem c10_position_fields :
    (∀ (contracts : List String) (amount : Int) (maxTrades : Nat)
      (threshold : ℚ) (frames : List (List TickerMsg × ℚ)) (c : String)
      (p : Position),
      (runSession contracts amount maxTrades threshold
        frames).current_position c = some p →
      0 < p.entry_price ∧ p.size = amount) ∧
    (∀ (s : TraderState) (c : String) (now : ℚ) (t : Ticker),
      s.tickers c = some t → t.last ≤ 0 →
      execute_buy_order s c now = (false, s)) := by
  constructor
  · intro contracts amount maxTrades threshold frames c p hp
    have h := (inv_run contracts amount maxTrades threshold
      frames).2.2.2.2 c p hp
    exact ⟨h.1, h.2.trans
      (run_config contracts amount maxTrades threshold frames).1⟩
  · intro s c now t ht hle
    have hnl : ¬ (0 < t.last) := not_lt.mpr hle
    unfold execute_buy_order place_futures_order
    simp [ht, hnl]

/-- Witness for C10: the position left by a wide-spread frame has entry
100 > 0 and size 1 = configured amount; a buy against a zero `last`
ticker fails and changes nothing. -/
theorem c10_witness :
    (0 < (Position.mk 1 100 0).entry_price ∧ (Position.mk 1 100 0).size = 1)
    ∧ execute_buy_order zeroLastState "BTC_USDT" 0 = (false, zeroLastState)
    := by
  constructor
  · refine c10_position_fields.1 ["BTC_USDT"] 1 2 (5 / 10000)
      [([msgWideSpread], 0)] "BTC_USDT"
      { size := 1, entry_price := 100, entry_time := 0 } ?_
    norm_num [runSession, startState, initState, on_open, on_ticker_message,
      process_ticker, check_trading_opportunities, should_place_buy_order,
      should_place_sell_order, execute_buy_order, execute_sell_order,
      place_futures_order, position_size_pos, calculate_spread_percentage,
      stop_trading, msgWideSpread, List.foldl, Option.getD, abs_of_nonneg,
      abs_of_nonpos, abs_neg]
  · exact c10_position_fields.2 zeroLastState "BTC_USDT" 0
      { last := 0, bid := 1, ask := 1, volume := 0, change_24h := 0,
        mark_price := 0, index_price := 0 } rfl (by norm_num)
